import Mathlib

set_option linter.unusedVariables false

/-!
# AgentFactory — verification of the retry/review orchestration core

Shallow embedding of the AgentFactory repository (Python) in Lean 4.

The embedding covers:
* `architect.py` — `Architect.design_workflow` and its one-repair-pass retry;
* `qa_lead.py` — `execute_agent_code` error containment;
* `engineer.py` — `create_engineer_agent` working-directory discipline and the
  generation prompt;
* `factory.py` — `AgentFactory.create_agent_async` (workspace allocation,
  architect stage, engineer/auditor loop per sub-agent, QA stage, exception
  handlers, debug-callback cancellation);
* `app.py` — the explicit debug-mode retry state machine
  (ENGINEER_READY → ENGINEER_DONE → AUDITOR_READY → RETRY_NEEDED → … →
  SUCCESS | FAILED).

Outbound LLM calls are opaque in the source (network I/O); they are modelled
as oracle fields of explicit "world" structures, so every theorem quantifies
over what the LLM may return.  Python exceptions are modelled with `Except`:
a `.error` value that survives to a function's result type models an uncaught
exception crossing that function's boundary.
-/

namespace AgentFactory

/-! ## Data model (§3 of the spec; JSON dictionaries from `architect.py`)

Python dictionaries may lack keys, so every field that the source reads with
`dict.get` is an `Option`.  `none` models an absent key. -/

/-- One entry of an agent's `inputs`/`outputs` list (name/type/description). -/
structure IOField where
  name : String
  ftype : String
  description : String
deriving DecidableEq, Repr

/-- One entry of the blueprint's `agents` list, as produced by the Architect
(`architect.py`, FINAL JSON STRUCTURE) and consumed by `factory.py` and
`engineer.py` via `dict.get`. -/
structure AgentDef where
  agent_name : Option String
  role : Option String
  suggested_model : Option String
  goal : Option String
  inputs : Option (List IOField)
  outputs : Option (List IOField)
  dependencies : Option (List String)
  instructions : Option String
deriving DecidableEq, Repr

/-- The blueprint dictionary: `\x7b"end_to_end_context": …, "agents": […]\x7d`.
`agents = none` models a dict without the `"agents"` key. -/
structure BlueprintJson where
  end_to_end_context : Option String
  agents : Option (List AgentDef)
deriving DecidableEq, Repr

/-! ## Architect (`architect.py`) -/

/-- One raw LLM reply: its text, and the outcome of
`json.loads(self._clean_json_response(text))` — `none` models a
`json.JSONDecodeError`. -/
structure LLMReply where
  text : String
  parsed : Option BlueprintJson
deriving DecidableEq, Repr

/-- Oracle world for one `design_workflow` call: the two replies the runner
may produce (first attempt and repair pass), and whether the surrounding
`asyncio.run` raises (`crash = some msg` models the outer
`except Exception as e` branch being taken before any reply is processed). -/
structure ArchitectWorld where
  resp1 : LLMReply
  resp2 : LLMReply
  crash : Option String
deriving DecidableEq, Repr

/-- Prompt built at the top of `design_workflow` (the f-string, plus the
optional feedback suffix). -/
def architectPrompt (userRequest : String) (availableModels : List String)
    (feedback : Option String) : String :=
  let base := "\n        User Request: " ++ userRequest ++
    "\n        Available Models: " ++ String.intercalate ", " availableModels ++
    "\n        \n        Design the workflow, visualize it, and output the JSON blueprint.\n        "
  match feedback with
  | some f => base ++ "\n\nUser Feedback on previous design: " ++ f ++ "\nPlease refine the design."
  | none => base

/-- First-attempt acceptance test of `_run_with_retry`:
`if "agents" in data and data["agents"]:` — the key must be present and its
list non-empty (Python truthiness of a list). -/
def firstAttemptResult (p : Option BlueprintJson) : Option BlueprintJson :=
  match p with
  | some d =>
    match d.agents with
    | some (_ :: _) => some d
    | _ => none
  | none => none

/-- Result of `design_workflow`: the blueprint dict on success, the
`\x7b"error": …, "raw_response": response_text[:500]\x7d` dict when the repair
pass also fails, or the `\x7b"error": str(e)\x7d` dict from the outer handler. -/
inductive DesignResult where
  | data (d : BlueprintJson)
  | retryFailed (error : String) (raw_response : String)
  | execError (error : String)
deriving DecidableEq, Repr

/-- `_run_with_retry` from `Architect.design_workflow`, paired with the number
of LLM calls issued (`runner.run_debug` invocations).  First attempt: accept
only a parsed dict whose `agents` list is present and non-empty; otherwise
issue exactly one repair request; the repair reply is accepted as soon as the
`agents` key is present (no emptiness check), else the error dict carrying the
first reply's text truncated to 500 characters is returned. -/
def runWithRetry (resp1 resp2 : LLMReply) : DesignResult × Nat :=
  match firstAttemptResult resp1.parsed with
  | some d => (DesignResult.data d, 1)
  | none =>
    match resp2.parsed with
    | some d =>
      match d.agents with
      | some _ => (DesignResult.data d, 2)
      | none => (DesignResult.retryFailed "Architect did not return valid JSON after retry"
          (resp1.text.take 500), 2)
    | none => (DesignResult.retryFailed "Architect did not return valid JSON after retry"
        (resp1.text.take 500), 2)

/-- `Architect.design_workflow`: runs `_run_with_retry` under `asyncio.run`;
the outer `except Exception` converts any raised exception into a returned
`\x7b"error": str(e)\x7d` dict (modelled with call count 0: the crash oracle
fires at the `asyncio.run` boundary).  Total function: the Python function
never lets an exception escape. -/
def design_workflow (userRequest : String) (availableModels : List String)
    (feedback : Option String) (w : ArchitectWorld) : DesignResult × Nat :=
  match w.crash with
  | some e => (DesignResult.execError e, 0)
  | none => runWithRetry w.resp1 w.resp2

/-! ## Validator (`qa_lead.py`, `execute_agent_code`) -/

/-- The dictionary returned by `execute_agent_code`: either
`\x7b"success": True, "output": …\x7d` or `\x7b"success": False, "error": …\x7d`. -/
structure QAExecResult where
  success : Bool
  output : Option String
  error : Option String
deriving DecidableEq, Repr

/-- Oracle world for one `execute_agent_code` call.  `PyExc`s are carried as
their message strings; `tracebackOf e` is the text `traceback.format_exc()`
produces while exception `e` is being handled. -/
structure QAWorld where
  fileExists : Bool
  readFile : Except String String
  execDefinesAgent : String → Except String Bool
  runAgent : Except String String
  tracebackOf : String → String

/-- The body of `execute_agent_code` (everything inside its `try:`), with the
Python control flow made explicit: missing file and missing `agent` variable
are early `return`s with `success = False`; reading, `exec` and
`runner.run` may raise. -/
def executeAgentCodeBody (code_filepath test_input : String) (w : QAWorld) :
    Except String QAExecResult :=
  if ¬ w.fileExists then
    Except.ok ⟨false, none, some ("Code file not found: " ++ code_filepath)⟩
  else
    match w.readFile with
    | Except.error e => Except.error e
    | Except.ok code =>
      match w.execDefinesAgent code with
      | Except.error e => Except.error e
      | Except.ok definesAgent =>
        if ¬ definesAgent then
          Except.ok ⟨false, none, some "Code does not define an \x27agent\x27 variable"⟩
        else
          match w.runAgent with
          | Except.error e => Except.error e
          | Except.ok out => Except.ok ⟨true, some out, none⟩

/-- `execute_agent_code`: the whole body runs under
`try: … except Exception as e: return \x7b"success": False, "error":
traceback.format_exc()\x7d`. Total: no exception crosses the function
boundary. -/
def execute_agent_code (code_filepath test_input : String) (w : QAWorld) : QAExecResult :=
  match executeAgentCodeBody code_filepath test_input w with
  | Except.ok r => r
  | Except.error e => ⟨false, none, some (w.tracebackOf e)⟩

/-! ## Code Generator (`engineer.py`) -/

/-- JSON rendering of a string value.  `json.dumps` escaping of special
characters is not modelled (no claim depends on it). -/
def jsonString (s : String) : String := "\"" ++ s ++ "\""

/-- JSON rendering of one input/output field dictionary. -/
def dumpsIOField (f : IOField) : String :=
  "\x7b\"name\": " ++ jsonString f.name ++ ", \"type\": " ++ jsonString f.ftype ++
    ", \"description\": " ++ jsonString f.description ++ "\x7d"

/-- JSON rendering of an input/output field list (`json.dumps(  .get('inputs', []))`). -/
def dumpsIOFields (l : List IOField) : String :=
  "[" ++ String.intercalate ", " (l.map dumpsIOField) ++ "]"

/-- JSON rendering of a string list. -/
def dumpsStrList (l : List String) : String :=
  "[" ++ String.intercalate ", " (l.map jsonString) ++ "]"

/-- `json.dumps(agent_definition, indent=2)`, modelled with the canonical key
order of the Architect's schema and without the indentation whitespace (dict
key order and pretty-printing are runtime details no claim depends on);
absent keys are omitted, as `json.dumps` omits keys a dict does not have. -/
def dumpsAgentDef (d : AgentDef) : String :=
  let entry := fun (k : String) (v : Option String) =>
    v.map (fun s => "\"" ++ k ++ "\": " ++ s)
  let parts := [entry "agent_name" (d.agent_name.map jsonString),
    entry "role" (d.role.map jsonString),
    entry "suggested_model" (d.suggested_model.map jsonString),
    entry "goal" (d.goal.map jsonString),
    entry "inputs" (d.inputs.map dumpsIOFields),
    entry "outputs" (d.outputs.map dumpsIOFields),
    entry "dependencies" (d.dependencies.map dumpsStrList),
    entry "instructions" (d.instructions.map jsonString)]
  "\x7b" ++ String.intercalate ", " (parts.filterMap id) ++ "\x7d"

/-- The Engineer's generation prompt: the `instruction` f-string of
`create_engineer_agent` (engineer.py).  Its only interpolated data are the
blueprint entry (`agent_definition`) and the workflow `context`; the function
has no feedback parameter of any kind. -/
def engineerInstruction (agent_definition : AgentDef) (context : String) : String :=
  let agent_name := agent_definition.agent_name.getD "Unknown_Agent"
  "\n    You are The Engineer, a senior Python developer specializing in agent development with Google ADK.\n    \n    **YOUR MISSION:**\n    Implement the agent described in the blueprint below using ONLY google.adk and google.genai libraries.\n    \n    **CRITICAL RULES:**\n    1. **EXCLUSIVE LIBRARY USE**: You MUST use ONLY:\n       - google.adk (for agents, runners, tools)\n       - google.genai (for types, models)\n       - Standard library (os, json, logging, etc.)\n    \n    2. **REFERENCE THE CODING BIBLE**: \n       - Call `read_coding_bible` tool FIRST to review ADK patterns\n       - Follow the patterns EXACTLY as documented\n       - DO NOT improvise - replicate the examples\n    \n    3. **CODE STRUCTURE**:\n       - Import from google.adk.agents (LlmAgent, SequentialAgent, LoopAgent, etc.)\n       - Import from google.adk.models.google_llm (Gemini)\n       - Import from google.adk.runners (InMemoryRunner)\n       - Define custom tools as Python functions with proper type hints and docstrings\n       - Create the agent using LlmAgent with clear instructions\n       - Name the final agent object as \x27agent\x27 so it can be executed\n    \n    4. **TOOL CREATION**:\n       - Define tools as regular Python functions\n       - Use ToolContext parameter if the tool needs state access\n       - Include comprehensive docstrings\n       - Return dictionaries with clear status/data\n    \n    **FULL WORKFLOW CONTEXT:**\n    " ++
  context ++
  "\n    \n    **YOUR TARGET AGENT BLUEPRINT:**\n    ```json\n    " ++
  dumpsAgentDef agent_definition ++
  "\n    ```\n    \n    **IMPLEMENTATION PROCESS:**\n    \n    1. **Study**: Call `read_coding_bible` to review ADK patterns\n    \n    2. **Plan**: Based on the blueprint:\n       - What tools does this agent need?\n       - What inputs will it receive (from state or previous agents)?\n       - What outputs should it produce?\n       - What ADK pattern fits best (simple LlmAgent, SequentialAgent, LoopAgent)?\n    \n    3. **Implement**: Write complete, production-ready Python code:\n       ```python\n       \x23 Standard imports\n       \x69mport os\n       \x69mport json\n       \x69mport logging\n       from typing import Dict, Any, List\n       \n       \x23 ADK imports\n       from google.adk.agents import LlmAgent\n       from google.adk.models.google_llm import Gemini\n       from google.adk.runners import InMemoryRunner\n       from google.adk.tools.tool_context import ToolContext\n       from google.genai import types\n       \n       \x23 Configure model\n       model = Gemini(model=\"" ++
  agent_definition.suggested_model.getD "gemini-2.5-flash" ++
  "\")\n       \n       \x23 Define custom tools\n       def my_tool(param: str, tool_context: ToolContext) -> Dict[str, Any]:\n           \"\"\"Tool docstring.\"\"\"\n           \x23 Implementation\n           return \x7b\"status\": \"success\", \"result\": \"...\"\x7d\n       \n       \x23 Create agent\n       agent = LlmAgent(\n           name=\"" ++
  agent_name ++
  "\",\n           model=model,\n           instruction=\"\"\"\n           Clear, detailed instructions for what this agent does.\n           Use \x7binput_variable\x7d syntax to reference inputs from state.\n           \"\"\",\n           tools=[my_tool]\n       )\n       ```\n    \n    4. **Save**: Call `write_code_to_file` with:\n       - filename: \"agent_" ++
  agent_name ++
  ".py\"\n       - code: Your complete implementation\n    \n    5. **Verify**: Output a summary of:\n       - What tools you created\n       - What the agent does\n       - How it should be executed\n    \n    **KEY REQUIREMENTS:**\n    - Agent name must be \"" ++
  agent_name ++
  "\"\n    - Follow the role: " ++
  agent_definition.role.getD "Not specified" ++
  "\n    - Achieve the goal: " ++
  agent_definition.goal.getD "Not specified" ++
  "\n    - Handle inputs: " ++
  dumpsIOFields (agent_definition.inputs.getD []) ++
  "\n    - Produce outputs: " ++
  dumpsIOFields (agent_definition.outputs.getD []) ++
  "\n    \n    **ARCHITECT\x27S DETAILED INSTRUCTIONS:**\n    " ++
  agent_definition.instructions.getD "No additional instructions provided" ++
  "\n    \n    **OUTPUT:**\n    First call read_coding_bible, then implement the agent, then save it.\n    Finally, provide a brief summary of what you built.\n    "

/-- Filesystem/process state visible to `create_engineer_agent`: the current
working directory (`os.getcwd` / `os.chdir`) and the set of directories
created so far (`os.makedirs`). -/
structure FS where
  cwd : String
  dirs : List String
deriving DecidableEq, Repr

/-- `os.path.isabs` on POSIX: the path starts with `/`. -/
def isAbsolute (p : String) : Bool :=
  match p.toList with
  | c :: _ => c = '/'
  | [] => false

/-- POSIX path resolution relative to a working directory: absolute paths
are taken as-is, relative ones are joined onto `cwd`. -/
def resolvePath (cwd p : String) : String :=
  if isAbsolute p then p else cwd ++ "/" ++ p

/-- `os.chdir(p)`. -/
def chdir (s : FS) (p : String) : FS := { s with cwd := resolvePath s.cwd p }

/-- `os.makedirs(p, exist_ok=True)`. -/
def makedirs (s : FS) (p : String) : FS :=
  { s with dirs := resolvePath s.cwd p :: s.dirs }

/-- The configured `LlmAgent` value returned by `create_engineer_agent`. -/
structure EngineerAgent where
  name : String
  instruction : String
  tools : List String
deriving DecidableEq, Repr

/-- `create_engineer_agent` (engineer.py): records `original_dir = os.getcwd()`,
optionally creates and enters `workspace_dir` (Python truthiness:
`if workspace_dir and workspace_dir != "."`), builds the engineer `LlmAgent`,
then unconditionally restores the original directory before returning. -/
def create_engineer_agent (agent_definition : AgentDef) (context : String)
    (workspace_dir : String) (s : FS) : EngineerAgent × FS :=
  let agent_name := agent_definition.agent_name.getD "Unknown_Agent"
  let original_dir := s.cwd
  let s1 := if workspace_dir ≠ "" ∧ workspace_dir ≠ "." then
    chdir (makedirs s workspace_dir) workspace_dir else s
  let engineer : EngineerAgent :=
    ⟨"Engineer_" ++ agent_name, engineerInstruction agent_definition context,
      ["read_coding_bible", "write_code_to_file"]⟩
  let s2 := chdir s1 original_dir
  (engineer, s2)

/-! ## Orchestrator (`factory.py`, `AgentFactory.create_agent_async`) -/

/-- Python exceptions used for control flow inside `create_agent_async`:
the `InterruptedError("Cancelled by user")` raised by `notify_debug`, and any
other `Exception` (carried as its message). -/
inductive PyErr where
  | interrupted
  | err (msg : String)
deriving DecidableEq, Repr

/-- One entry of `qa_results`: agent name plus the (opaque) QA runner
outcome. -/
structure QAEntry where
  agent_name : String
  result : String
deriving DecidableEq, Repr

/-- The `content` argument of a `debug_callback` invocation, one constructor
per payload shape appearing in `create_agent_async`. -/
inductive Payload where
  | goalP (goal : String)
  | blueprintP (bp : BlueprintJson)
  | countP (agent_count : Nat)
  | agentDefP (d : AgentDef)
  | codeFileP (code_file : String)
  | filesP (files_to_test : List String)
  | qaP (qs : List QAEntry)
deriving DecidableEq, Repr

/-- One entry of `generated_code_files`. -/
structure GeneratedFile where
  agent_name : String
  filepath : String
  definition : AgentDef
deriving DecidableEq, Repr

/-- The `final_results` dictionary assembled at the end of
`create_agent_async`. -/
structure FinalResults where
  workspace_dir : String
  blueprint : BlueprintJson
  generated_files : List GeneratedFile
  qa_results : List QAEntry
  status : String
deriving DecidableEq, Repr

/-- Observable side effects of one `create_agent_async` call, in order:
workspace allocation, callback notifications, the architect run, the
`blueprint.json` write, and the per-agent review/QA runner executions (which
write trace logs and code files into the workspace). -/
inductive FEvent where
  | allocWorkspace (dir : String)
  | notify (step_name : String)
  | runArchitect
  | writeBlueprint (path : String)
  | runReviewLoop (agent_name : String)
  | runQA (agent_name : String)
deriving DecidableEq, Repr

/-- `notify_debug` (local helper in `create_agent_async`): when a callback is
registered and returns a falsy value, raise `InterruptedError`. -/
def notify_debug (cb : Option (String → Payload → Bool)) (step_name : String)
    (content : Payload) : Except PyErr Unit :=
  match cb with
  | none => Except.ok ()
  | some f => if f step_name content then Except.ok () else Except.error PyErr.interrupted

/-- The workspace slug from `prepare_workspace`:
`"".join(c if c.isalnum() else "_" for c in goal.lower())[:50]`
(`goal.lower()` modelled character-wise, which agrees on ASCII). -/
def slugOf (goal : String) : String :=
  String.mk (((goal.toList.map (fun c => c.toLower)).map
    (fun c => if c.isAlphanum then c else '_')).take 50)

/-- Oracle world for one `create_agent_async` call.  `prepError` models
`prepare_workspace` raising (e.g. `os.makedirs` failing); `architectRes`
models the architect stage (its `.error` is a raised exception,
`.ok none` a falsy blueprint); `saveBlueprintError` models the
`blueprint.json` write raising; `codeFileExists` models the
`os.path.exists(code_file)` check after a review loop; `qaOutcome` the QA
runner's result.  The engineer's transient directory dance and the trace-log
writes have no bearing on any claim and are folded into the run events. -/
structure FactoryWorld where
  cwd : String
  prepError : Option String
  architectRes : Except String (Option BlueprintJson)
  saveBlueprintError : Option String
  codeFileExists : AgentDef → Bool
  qaOutcome : String → String

/-- The STEP 2 loop of `create_agent_async`: for each blueprint agent, notify,
run the Engineer+Auditor `LoopAgent`, record the generated file when
`os.path.exists` reports it, notify completion, and continue with the rest —
there is no failure exit for an agent whose loop produced no file. -/
def engineerLoop (cb : Option (String → Payload → Bool)) (workspace_dir : String)
    (w : FactoryWorld) : List AgentDef → List FEvent × Except PyErr (List GeneratedFile)
  | [] => ([], Except.ok [])
  | agent_def :: rest =>
    let agent_name := agent_def.agent_name.getD "unknown"
    let ev1 := [FEvent.notify ("Engineer: Building " ++ agent_name)]
    match notify_debug cb ("Engineer: Building " ++ agent_name) (Payload.agentDefP agent_def) with
    | Except.error e => (ev1, Except.error e)
    | Except.ok _ =>
      let code_file := workspace_dir ++ "/agent_" ++ agent_name ++ ".py"
      let ev2 := ev1 ++ [FEvent.runReviewLoop agent_name,
        FEvent.notify ("Engineer: Complete " ++ agent_name)]
      match notify_debug cb ("Engineer: Complete " ++ agent_name) (Payload.codeFileP code_file) with
      | Except.error e => (ev2, Except.error e)
      | Except.ok _ =>
        match engineerLoop cb workspace_dir w rest with
        | (evR, Except.error e) => (ev2 ++ evR, Except.error e)
        | (evR, Except.ok gens) =>
          (ev2 ++ evR, Except.ok
            (if w.codeFileExists agent_def then ⟨agent_name, code_file, agent_def⟩ :: gens else gens))

/-- The STEP 3 loop of `create_agent_async`: one QA runner execution per
generated file (no callback notification inside the loop). -/
def qaLoop (w : FactoryWorld) : List GeneratedFile → List FEvent × List QAEntry
  | [] => ([], [])
  | g :: rest =>
    let (evR, qs) := qaLoop w rest
    (FEvent.runQA g.agent_name :: evR, ⟨g.agent_name, w.qaOutcome g.agent_name⟩ :: qs)

/-- Everything inside the `try:` of `create_agent_async`, with its four
notification points, early `return None, None` on a falsy blueprint, and the
final `status: "success"` result. -/
def createAgentBody (goal : String) (cb : Option (String → Payload → Bool))
    (w : FactoryWorld) (workspace_dir : String) :
    List FEvent × Except PyErr (Option String × Option FinalResults) :=
  match notify_debug cb "Architect: Start" (Payload.goalP goal) with
  | Except.error e => ([FEvent.notify "Architect: Start"], Except.error e)
  | Except.ok _ =>
    match w.architectRes with
    | Except.error e =>
      ([FEvent.notify "Architect: Start", FEvent.runArchitect], Except.error (PyErr.err e))
    | Except.ok none =>
      ([FEvent.notify "Architect: Start", FEvent.runArchitect], Except.ok (none, none))
    | Except.ok (some blueprint) =>
      let ev0 := [FEvent.notify "Architect: Start", FEvent.runArchitect,
        FEvent.notify "Architect: Complete"]
      match notify_debug cb "Architect: Complete" (Payload.blueprintP blueprint) with
      | Except.error e => (ev0, Except.error e)
      | Except.ok _ =>
        let blueprint_path := workspace_dir ++ "/blueprint.json"
        let ev1 := ev0 ++ [FEvent.writeBlueprint blueprint_path]
        match w.saveBlueprintError with
        | some e => (ev1, Except.error (PyErr.err e))
        | none =>
          let agents_to_build := blueprint.agents.getD []
          let ev2 := ev1 ++ [FEvent.notify "Factory: Engineer Phase Start"]
          match notify_debug cb "Factory: Engineer Phase Start"
              (Payload.countP agents_to_build.length) with
          | Except.error e => (ev2, Except.error e)
          | Except.ok _ =>
            match engineerLoop cb workspace_dir w agents_to_build with
            | (evL, Except.error e) => (ev2 ++ evL, Except.error e)
            | (evL, Except.ok generated_code_files) =>
              let ev3 := ev2 ++ evL ++ [FEvent.notify "QA Lead: Start"]
              match notify_debug cb "QA Lead: Start"
                  (Payload.filesP (generated_code_files.map (fun g => g.filepath))) with
              | Except.error e => (ev3, Except.error e)
              | Except.ok _ =>
                let (evQ, qa_results) := qaLoop w generated_code_files
                let ev4 := ev3 ++ evQ ++ [FEvent.notify "QA Lead: Complete"]
                match notify_debug cb "QA Lead: Complete" (Payload.qaP qa_results) with
                | Except.error e => (ev4, Except.error e)
                | Except.ok _ =>
                  (ev4, Except.ok (some workspace_dir,
                    some ⟨workspace_dir, blueprint, generated_code_files, qa_results, "success"⟩))

/-- `AgentFactory.create_agent_async`.  `prepare_workspace` runs BEFORE the
`try:` block, so an exception there escapes the function (a surviving
`Except.error` in the result); inside the `try:`, both the
`except InterruptedError` and the `except Exception` handlers return
`(None, None)`.  The paired event list is the observable side-effect trace. -/
def create_agent_async (goal mode : String) (max_review_iterations : Nat)
    (debug_callback : Option (String → Payload → Bool)) (w : FactoryWorld) :
    List FEvent × Except String (Option String × Option FinalResults) :=
  match w.prepError with
  | some e => ([], Except.error e)
  | none =>
    let workspace_dir := w.cwd ++ "/workspaces/" ++ slugOf goal
    let (evs, body) := createAgentBody goal debug_callback w workspace_dir
    (FEvent.allocWorkspace workspace_dir :: evs,
      Except.ok (match body with
        | Except.error _ => (none, none)
        | Except.ok r => r))

/-- `AgentFactory.create_agent`: the synchronous wrapper is
`asyncio.run(self.create_agent_async(...))` — same behaviour. -/
def create_agent (goal mode : String) (max_review_iterations : Nat)
    (debug_callback : Option (String → Payload → Bool)) (w : FactoryWorld) :
    List FEvent × Except String (Option String × Option FinalResults) :=
  create_agent_async goal mode max_review_iterations debug_callback w

/-! ## Debug-mode retry state machine (`app.py`, Debug tab)

`app.py` drives plan→generate→review→(retry|accept|fail) explicitly through
`st.session_state`: this is the source's only explicit retry counter.  Button
handlers become a step function; the Streamlit rerun loop becomes a
fuel-bounded driver that always presses the progressing button. -/

/-- `st.session_state.debug_state` values. -/
inductive DebugPhase where
  | IDLE
  | ARCHITECT_READY
  | ARCHITECT_DONE
  | ENGINEER_READY
  | ENGINEER_DONE
  | AUDITOR_READY
  | RETRY_NEEDED
  | SUCCESS
  | FAILED
deriving DecidableEq, Repr

/-- The relevant slice of `st.session_state`. -/
structure DebugSession where
  debug_state : DebugPhase
  blueprint : Option BlueprintJson
  code : Option String
  feedback : Option String
  attempt : Nat
deriving DecidableEq, Repr

/-- Initial session state (`debug_state = "IDLE"`, `attempt = 0`). -/
def initialSession : DebugSession := ⟨DebugPhase.IDLE, none, none, none, 0⟩

/-- The dictionary returned by the auditor stage as read by `app.py`
(`result["status"]`, `result.get("feedback")`, `result.get("reasoning")`). -/
structure AuditOutcome where
  status : String
  feedback : Option String
  reasoning : Option String
deriving DecidableEq, Repr

/-- Python `a or b` on two `dict.get` results (strings or `None`): the left
value unless it is falsy (`None` or the empty string). -/
def pyOr (a b : Option String) : Option String :=
  match a with
  | some s => if s = "" then b else some s
  | none => b

/-- Oracle world for one debug session: the architect's blueprint dict, the
generator (`factory.engineer.build_agent(target_agent, context)` — note its
two arguments), and the auditor verdict, indexed by the attempt number at
which the LLM call is made. -/
structure DebugWorld where
  designResult : BlueprintJson
  buildCode : AgentDef → String → String
  audit : Nat → AuditOutcome

/-- The progressing button of each phase. -/
inductive DebugAction where
  | startSession
  | runArchitect
  | continueToEngineer
  | runEngineer
  | continueToAuditor
  | runAuditor
  | retryClick
deriving DecidableEq, Repr

/-- Observable calls of the debug session: each generator invocation with the
exact data passed to it, each auditor invocation, and `factory.save_agent`. -/
inductive DEvent where
  | engineerCall (target_agent : AgentDef) (context : String) (attempt : Nat)
  | auditorCall (attempt : Nat)
  | saveAgent
deriving DecidableEq, Repr

/-- One button press of the Debug tab, transcribed handler by handler from
`app.py`.  A button absent from the current phase is a no-op (Streamlit does
not render it).  Notable details from the source: `continueToEngineer`
validates a non-empty `agents` list and sets `attempt = 1`; `runEngineer`
always passes `(agents[0], end_to_end_context)` to the generator — the stored
`feedback` is displayed but not an argument; `runAuditor` stores
`result.get("feedback") or result.get("reasoning")` and branches on
`attempt < max_retries`; `retryClick` increments `attempt`. -/
def debugStep (w : DebugWorld) (max_retries : Nat) (s : DebugSession) :
    DebugAction → DebugSession × List DEvent
  | DebugAction.startSession =>
    if s.debug_state = DebugPhase.IDLE then
      ({ s with debug_state := DebugPhase.ARCHITECT_READY }, [])
    else (s, [])
  | DebugAction.runArchitect =>
    if s.debug_state = DebugPhase.ARCHITECT_READY then
      ({ s with
          blueprint := some w.designResult,
          debug_state := DebugPhase.ARCHITECT_DONE }, [])
    else (s, [])
  | DebugAction.continueToEngineer =>
    if s.debug_state = DebugPhase.ARCHITECT_DONE then
      match s.blueprint with
      | some bp =>
        match bp.agents with
        | some (_ :: _) =>
          ({ s with debug_state := DebugPhase.ENGINEER_READY, attempt := 1 }, [])
        | _ => (s, [])
      | none => (s, [])
    else (s, [])
  | DebugAction.runEngineer =>
    if s.debug_state = DebugPhase.ENGINEER_READY then
      match s.blueprint with
      | some bp =>
        match bp.agents.getD [] with
        | [] => (s, [])
        | target_agent :: _ =>
          let context := bp.end_to_end_context.getD ""
          ({ s with
              code := some (w.buildCode target_agent context),
              debug_state := DebugPhase.ENGINEER_DONE },
            [DEvent.engineerCall target_agent context s.attempt])
      | none => (s, [])
    else (s, [])
  | DebugAction.continueToAuditor =>
    if s.debug_state = DebugPhase.ENGINEER_DONE then
      ({ s with debug_state := DebugPhase.AUDITOR_READY }, [])
    else (s, [])
  | DebugAction.runAuditor =>
    if s.debug_state = DebugPhase.AUDITOR_READY then
      let result := w.audit s.attempt
      if result.status = "PASS" then
        ({ s with debug_state := DebugPhase.SUCCESS },
          [DEvent.auditorCall s.attempt, DEvent.saveAgent])
      else
        let s1 := { s with feedback := pyOr result.feedback result.reasoning }
        if s.attempt < max_retries then
          ({ s1 with debug_state := DebugPhase.RETRY_NEEDED }, [DEvent.auditorCall s.attempt])
        else
          ({ s1 with debug_state := DebugPhase.FAILED }, [DEvent.auditorCall s.attempt])
    else (s, [])
  | DebugAction.retryClick =>
    if s.debug_state = DebugPhase.RETRY_NEEDED then
      ({ s with attempt := s.attempt + 1, debug_state := DebugPhase.ENGINEER_READY }, [])
    else (s, [])

/-- The progressing button for each phase; `none` for the two terminal
phases (SUCCESS and FAILED only offer "Start Over"). -/
def nextAction : DebugPhase → Option DebugAction
  | DebugPhase.IDLE => some DebugAction.startSession
  | DebugPhase.ARCHITECT_READY => some DebugAction.runArchitect
  | DebugPhase.ARCHITECT_DONE => some DebugAction.continueToEngineer
  | DebugPhase.ENGINEER_READY => some DebugAction.runEngineer
  | DebugPhase.ENGINEER_DONE => some DebugAction.continueToAuditor
  | DebugPhase.AUDITOR_READY => some DebugAction.runAuditor
  | DebugPhase.RETRY_NEEDED => some DebugAction.retryClick
  | DebugPhase.SUCCESS => none
  | DebugPhase.FAILED => none

/-- Fuel-bounded driver: a user who always presses the progressing button.
Returns the final session and the concatenated event trace. -/
def debugRun (w : DebugWorld) (max_retries : Nat) :
    Nat → DebugSession → DebugSession × List DEvent
  | 0, s => (s, [])
  | fuel + 1, s =>
    match nextAction s.debug_state with
    | none => (s, [])
    | some a =>
      let (s1, ev) := debugStep w max_retries s a
      let (s2, evs) := debugRun w max_retries fuel s1
      (s2, ev ++ evs)

/-- Number of generator invocations in a trace. -/
def engineerCalls (evs : List DEvent) : Nat :=
  (evs.filter (fun e => match e with
    | DEvent.engineerCall _ _ _ => true
    | _ => false)).length

/-- The texts handed to the generator in one `build_agent(target_agent,
context)` call: every blueprint field of the target plus the workflow
context. -/
def generatorInputTexts (d : AgentDef) (context : String) : List String :=
  [d.agent_name.getD "", d.role.getD "", d.suggested_model.getD "", d.goal.getD "",
    dumpsIOFields (d.inputs.getD []), dumpsIOFields (d.outputs.getD []),
    dumpsStrList (d.dependencies.getD []), d.instructions.getD "", context]

/-- `startsWithChars pat l`: `pat` is a prefix of `l` (character lists). -/
def startsWithChars : List Char → List Char → Bool
  | [], _ => true
  | _ :: _, [] => false
  | p :: ps, c :: cs => p = c && startsWithChars ps cs

/-- `containsChars pat l`: `pat` occurs contiguously somewhere in `l`. -/
def containsChars (pat : List Char) : List Char → Bool
  | [] => pat.isEmpty
  | c :: cs => startsWithChars pat (c :: cs) || containsChars pat cs

/-- `textContains s pat`: `pat` is a (contiguous) substring of `s`. -/
def textContains (s pat : String) : Bool := containsChars pat.toList s.toList

/-- Whether the generator's input mentions `fb` verbatim (substring of the
context or of any blueprint field of the target agent). -/
def generatorInputMentions (d : AgentDef) (context fb : String) : Bool :=
  (generatorInputTexts d context).any (fun s => textContains s fb)

/-! ## Concrete sample data used by counterexamples and witnesses -/

/-- A minimal blueprint agent entry. -/
def agentA : AgentDef :=
  ⟨some "a", some "ra", some "gemini-2.5-flash", some "ga", some [], some [], some [], some "ia"⟩

/-- A second blueprint agent entry. -/
def agentB : AgentDef :=
  ⟨some "b", some "rb", some "gemini-2.5-flash", some "gb", some [], some [], some [], some "ib"⟩

/-- Architect world: both LLM replies fail to parse as JSON. -/
def archBothBad : ArchitectWorld :=
  ⟨⟨"Here is my design, in prose.", none⟩, ⟨"Sorry, still prose.", none⟩, none⟩

/-- Architect world: first reply unparsable, repair reply parses to a
blueprint whose `agents` list is empty. -/
def archRetryEmpty : ArchitectWorld :=
  ⟨⟨"Here is my design, in prose.", none⟩, ⟨"ok", some ⟨some "c", some []⟩⟩, none⟩

/-- Architect world: first reply parses to a valid one-agent blueprint. -/
def archFirstGood : ArchitectWorld :=
  ⟨⟨"ok", some ⟨some "c", some [agentA]⟩⟩, ⟨"", none⟩, none⟩

/-- QA world: the generated artifact raises `ZeroDivisionError` when
executed. -/
def qaRaises : QAWorld :=
  ⟨true, Except.ok "print(1/0)",
    fun _ => Except.error "ZeroDivisionError: division by zero",
    Except.ok "",
    fun e => "Traceback (most recent call last):\n  ...\n" ++ e⟩

/-- Factory world: the architect returns a blueprint whose `agents` list is
empty. -/
def wEmptyPlan : FactoryWorld :=
  ⟨"/root", none, Except.ok (some ⟨some "ctx", some []⟩), none,
    fun _ => false, fun _ => "PASS"⟩

/-- Factory world: the architect stage yields a falsy blueprint (`None`). -/
def wNoPlan : FactoryWorld :=
  ⟨"/root", none, Except.ok none, none, fun _ => false, fun _ => ""⟩

/-- Factory world: the architect returns a (truthy) blueprint dict that has
no `"agents"` key at all. -/
def wMissingAgents : FactoryWorld :=
  ⟨"/root", none, Except.ok (some ⟨some "ctx", none⟩), none,
    fun _ => false, fun _ => "PASS"⟩

/-- Factory world: a two-agent plan where the first agent's review loop
produces no code file and the second one's does. -/
def wSkipsFailed : FactoryWorld :=
  ⟨"/root", none, Except.ok (some ⟨some "c", some [agentA, agentB]⟩), none,
    fun d => d.agent_name == some "b", fun _ => "qa-ok"⟩

/-- Factory world: `prepare_workspace` raises (e.g. `os.makedirs` denied). -/
def wPrepFails : FactoryWorld :=
  ⟨"/root", some "PermissionError: [Errno 13] Permission denied: \x27workspaces\x27",
    Except.ok none, none, fun _ => false, fun _ => ""⟩

/-- Factory world: a healthy one-agent plan (used to compare a cancelled run
against a failed run). -/
def wGoodPlan : FactoryWorld :=
  ⟨"/root", none, Except.ok (some ⟨some "c", some [agentA]⟩), none,
    fun _ => true, fun _ => "qa-ok"⟩

/-- Debug world: the auditor rejects every attempt with the same feedback. -/
def wAlwaysFail : DebugWorld :=
  ⟨⟨some "c", some [agentA]⟩, fun _ _ => "generated code",
    fun _ => ⟨"FAIL", some "missing function X", none⟩⟩

/-- Debug world: the auditor rejects attempt 1 with feedback
`"missing function X"` and passes attempt 2. -/
def wFailThenPass : DebugWorld :=
  ⟨⟨some "c", some [agentA]⟩, fun _ _ => "generated code",
    fun k => if k = 1 then ⟨"FAIL", some "missing function X", none⟩
      else ⟨"PASS", none, none⟩⟩

/-- Summary of the engineer loop's `generated_code_files` accumulator: one
entry per blueprint agent whose review loop left a code file behind, in plan
order. -/
def genFilesOf (workspace_dir : String) (w : FactoryWorld) (l : List AgentDef) :
    List GeneratedFile :=
  (l.filter w.codeFileExists).map (fun d =>
    ⟨d.agent_name.getD "unknown",
      workspace_dir ++ "/agent_" ++ d.agent_name.getD "unknown" ++ ".py", d⟩)

/-- Summary of the QA loop's `qa_results` accumulator. -/
def qaEntriesOf (w : FactoryWorld) (l : List GeneratedFile) : List QAEntry :=
  l.map (fun g => ⟨g.agent_name, w.qaOutcome g.agent_name⟩)

/-! ## Theorems -/

/-- `firstAttemptResult` only accepts dicts with a non-empty `agents` list. -/
theorem firstAttemptResult_agents {p : Option BlueprintJson} {d : BlueprintJson}
    (h : firstAttemptResult p = some d) : ∃ a as, d.agents = some (a :: as) := by
  cases p with
  | none => exact Option.noConfusion h
  | some d1 =>
    obtain ⟨ctx1, ag1⟩ := d1
    cases ag1 with
    | none => exact Option.noConfusion h
    | some l =>
      cases l with
      | nil => exact Option.noConfusion h
      | cons a as =>
        cases h
        exact ⟨a, as, rfl⟩

/-- Claim C7 (confirmed): when the first LLM reply does not parse into a
valid blueprint, `design_workflow` issues exactly one repair request (two LLM
calls in total), and when the repair reply also fails to parse it returns the
`\x7b"error": …, "raw_response": response_text[:500]\x7d` dictionary — a
returned value carrying the raw response, not a raised exception (the model
of `design_workflow` is a total function because the source catches every
exception). -/
theorem design_one_repair_pass (req : String) (models : List String)
    (fb : Option String) (w : ArchitectWorld)
    (hc : w.crash = none) (h1 : firstAttemptResult w.resp1.parsed = none) :
    (design_workflow req models fb w).2 = 2 ∧
      (w.resp2.parsed = none →
        (design_workflow req models fb w).1 =
          DesignResult.retryFailed "Architect did not return valid JSON after retry"
            (w.resp1.text.take 500)) := by
  unfold design_workflow runWithRetry
  rw [hc, h1]
  constructor
  · cases h2 : w.resp2.parsed with
    | none => simp [h2]
    | some d => cases hd : d.agents <;> simp [h2, hd]
  · intro h2
    rw [h2]

/-- Witness for C7 at a concrete world where both replies are prose. -/
theorem design_one_repair_pass_witness :
    (design_workflow "Build a weather bot" ["gemini-2.5-flash"] none archBothBad).2 = 2 ∧
      (design_workflow "Build a weather bot" ["gemini-2.5-flash"] none archBothBad).1 =
        DesignResult.retryFailed "Architect did not return valid JSON after retry"
          (archBothBad.resp1.text.take 500) := by
  have h := design_one_repair_pass "Build a weather bot" ["gemini-2.5-flash"] none
    archBothBad rfl rfl
  exact ⟨h.1, h.2 rfl⟩

/-- Claim C8 counterexample: the repair pass accepts a parsed reply as soon
as the `agents` key is present — here `design_workflow` returns success
status (a `data` result, no error) whose `agents` list is empty, so
`len(plan.subagents) >= 1` fails on the repair-pass attempt. -/
theorem design_retry_empty_agents_counterexample :
    design_workflow "r" ["m"] none archRetryEmpty =
        (DesignResult.data ⟨some "c", some []⟩, 2) ∧
      ((BlueprintJson.agents ⟨some "c", some []⟩).getD []).length = 0 := by
  exact ⟨rfl, rfl⟩

/-- Claim C8 (amended): a blueprint returned with success status on the FIRST
attempt has at least one sub-agent entry; a blueprint returned by the repair
pass is only guaranteed to have the `agents` key present — it may be empty. -/
theorem design_success_agents_guarantee (req : String) (models : List String)
    (fb : Option String) (w : ArchitectWorld) (hc : w.crash = none) :
    (∀ d, design_workflow req models fb w = (DesignResult.data d, 1) →
        1 ≤ (d.agents.getD []).length) ∧
      (∀ d, design_workflow req models fb w = (DesignResult.data d, 2) →
        d.agents.isSome) := by
  obtain ⟨⟨t1, p1⟩, ⟨t2, p2⟩, cr⟩ := w
  cases cr with
  | some e => exact absurd hc (by simp [ArchitectWorld.crash])
  | none =>
    cases p1 with
    | some d1 =>
      obtain ⟨c1, a1⟩ := d1
      cases a1 with
      | some l1 =>
        cases l1 with
        | cons a as =>
          constructor
          · intro d hd
            cases hd
            simp
          · intro d hd
            simp [design_workflow, runWithRetry, firstAttemptResult] at hd
        | nil =>
          cases p2 with
          | some d2 =>
            obtain ⟨c2, a2⟩ := d2
            cases a2 with
            | some l2 =>
              constructor
              · intro d hd
                simp [design_workflow, runWithRetry, firstAttemptResult] at hd
              · intro d hd
                cases hd
                simp
            | none =>
              constructor <;> intro d hd <;>
                simp [design_workflow, runWithRetry, firstAttemptResult] at hd
          | none =>
            constructor <;> intro d hd <;>
              simp [design_workflow, runWithRetry, firstAttemptResult] at hd
      | none =>
        cases p2 with
        | some d2 =>
          obtain ⟨c2, a2⟩ := d2
          cases a2 with
          | some l2 =>
            constructor
            · intro d hd
              simp [design_workflow, runWithRetry, firstAttemptResult] at hd
            · intro d hd
              cases hd
              simp
          | none =>
            constructor <;> intro d hd <;>
              simp [design_workflow, runWithRetry, firstAttemptResult] at hd
        | none =>
          constructor <;> intro d hd <;>
            simp [design_workflow, runWithRetry, firstAttemptResult] at hd
    | none =>
      cases p2 with
      | some d2 =>
        obtain ⟨c2, a2⟩ := d2
        cases a2 with
        | some l2 =>
          constructor
          · intro d hd
            simp [design_workflow, runWithRetry, firstAttemptResult] at hd
          · intro d hd
            cases hd
            simp
        | none =>
          constructor <;> intro d hd <;>
            simp [design_workflow, runWithRetry, firstAttemptResult] at hd
      | none =>
        constructor <;> intro d hd <;>
          simp [design_workflow, runWithRetry, firstAttemptResult] at hd

/-- Witness for C8's amended theorem at a world whose first reply is a valid
one-agent blueprint. -/
theorem design_success_agents_guarantee_witness :
    1 ≤ ((BlueprintJson.agents ⟨some "c", some [agentA]⟩).getD []).length := by
  have h := design_success_agents_guarantee "r" ["m"] none archFirstGood rfl
  exact h.1 ⟨some "c", some [agentA]⟩ rfl

/-- Claim C9 (confirmed): whenever executing the artifact raises — either
while `exec`-loading the code or while running the loaded agent —
`execute_agent_code` returns `\x7b"success": False, "error":
traceback.format_exc()\x7d`; the exception never crosses the function
boundary (the model is a total function because the source's `try:` wraps
the whole body). -/
theorem execute_agent_code_catches (code_filepath test_input : String)
    (w : QAWorld) (c e : String)
    (hf : w.fileExists = true) (hr : w.readFile = Except.ok c)
    (hx : w.execDefinesAgent c = Except.error e ∨
      (w.execDefinesAgent c = Except.ok true ∧ w.runAgent = Except.error e)) :
    execute_agent_code code_filepath test_input w =
      ⟨false, none, some (w.tracebackOf e)⟩ := by
  unfold execute_agent_code executeAgentCodeBody
  rcases hx with hx | ⟨hx, hrun⟩
  · simp [hf, hr, hx]
  · simp [hf, hr, hx, hrun]

/-- Witness for C9 at a concrete world whose artifact raises
`ZeroDivisionError` during `exec`. -/
theorem execute_agent_code_catches_witness :
    execute_agent_code "workspaces/demo/agent_a.py" "Test input" qaRaises =
      ⟨false, none,
        some (qaRaises.tracebackOf "ZeroDivisionError: division by zero")⟩ := by
  exact execute_agent_code_catches "workspaces/demo/agent_a.py" "Test input" qaRaises
    "print(1/0)" "ZeroDivisionError: division by zero" rfl rfl (Or.inl rfl)

/-- Claim C10 (confirmed): a successful `create_engineer_agent` call leaves
the process working directory exactly where it found it — `original_dir`
is captured with `os.getcwd()` (an absolute path) and unconditionally
restored with `os.chdir(original_dir)` before returning, even though the
call may `os.makedirs` + `os.chdir` into `workspace_dir` in between. -/
theorem create_engineer_restores_cwd (d : AgentDef) (context workspace_dir : String)
    (s : FS) (habs : isAbsolute s.cwd = true) :
    ((create_engineer_agent d context workspace_dir s).2).cwd = s.cwd := by
  unfold create_engineer_agent
  by_cases hws : workspace_dir ≠ "" ∧ workspace_dir ≠ "." <;>
    simp [hws, chdir, makedirs, resolvePath, habs]

/-- Witness for C10 at a concrete state and a relative workspace path. -/
theorem create_engineer_restores_cwd_witness :
    ((create_engineer_agent agentA "ctx" "workspaces/demo" ⟨"/home/user", []⟩).2).cwd =
      "/home/user" := by
  exact create_engineer_restores_cwd agentA "ctx" "workspaces/demo" ⟨"/home/user", []⟩ rfl

/-- The engineer loop without a registered callback never aborts and collects
exactly the agents whose review loop left a code file. -/
theorem engineerLoop_none (workspace_dir : String) (w : FactoryWorld)
    (l : List AgentDef) :
    (engineerLoop none workspace_dir w l).2 =
      Except.ok (genFilesOf workspace_dir w l) := by
  induction l with
  | nil => rfl
  | cons d rest ih =>
    rcases hrec : engineerLoop none workspace_dir w rest with ⟨evR, res⟩
    have hres : res = Except.ok (genFilesOf workspace_dir w rest) := by
      rw [← ih, hrec]
    subst hres
    cases hex : w.codeFileExists d <;>
      simp [engineerLoop, notify_debug, hrec, genFilesOf, List.filter, hex]

/-- The QA loop records one entry per generated file, in order. -/
theorem qaLoop_entries (w : FactoryWorld) (l : List GeneratedFile) :
    (qaLoop w l).2 = qaEntriesOf w l := by
  induction l with
  | nil => rfl
  | cons g rest ih =>
    rcases hrec : qaLoop w rest with ⟨evR, qs⟩
    have hqs : qs = qaEntriesOf w rest := by rw [← ih, hrec]
    subst hqs
    simp [qaLoop, hrec, qaEntriesOf]

/-- Claim C3 counterexample: the architect returns a blueprint whose
`agents` list is empty, and `create_agent_async` returns a SUCCESS result
(`status = "success"`, a workspace, zero generated files) — there is no
`InvalidPlan` validation failure in `build()`. -/
theorem empty_plan_success_counterexample :
    (create_agent_async "g" "yolo" 3 none wEmptyPlan).2 =
      Except.ok (some "/root/workspaces/g",
        some ⟨"/root/workspaces/g", ⟨some "ctx", some []⟩, [], [], "success"⟩) := by
  rfl

/-- Claim C3 (amended): `create_agent_async` performs no subagent-list
validation at all.  A falsy blueprint (the architect stage returned `None`)
yields the generic failure value `(None, None)` — with no `InvalidPlan`
reason attached — while a blueprint whose `agents` list is EMPTY OR MISSING
(`blueprint.get("agents", []) == []`, i.e. `bp.agents.getD [] = []`, covering
both `some []` and an absent key) sails through: the build returns a success
result with an empty artifact list.  (Only the debug-mode UI in `app.py`
checks for a non-empty `agents` list.) -/
theorem empty_plan_no_validation (goal mode : String) (iters : Nat)
    (w : FactoryWorld) (hp : w.prepError = none) (hs : w.saveBlueprintError = none) :
    (w.architectRes = Except.ok none →
        (create_agent_async goal mode iters none w).2 = Except.ok (none, none)) ∧
      (∀ bp, w.architectRes = Except.ok (some bp) → bp.agents.getD [] = [] →
        (create_agent_async goal mode iters none w).2 =
          Except.ok (some (w.cwd ++ "/workspaces/" ++ slugOf goal),
            some ⟨w.cwd ++ "/workspaces/" ++ slugOf goal, bp, [], [], "success"⟩)) := by
  constructor
  · intro ha
    simp [create_agent_async, hp, createAgentBody, notify_debug, ha]
  · intro bp ha hag
    simp [create_agent_async, hp, createAgentBody, notify_debug, ha, hs, hag,
      engineerLoop, qaLoop]

/-- Witness for C3's amended theorem at concrete worlds exercising all three
branches: falsy blueprint, empty `agents` list, and missing `agents` key. -/
theorem empty_plan_no_validation_witness :
    (create_agent_async "g" "yolo" 3 none wNoPlan).2 = Except.ok (none, none) ∧
      (create_agent_async "g" "yolo" 3 none wEmptyPlan).2 =
        Except.ok (some (wEmptyPlan.cwd ++ "/workspaces/" ++ slugOf "g"),
          some ⟨wEmptyPlan.cwd ++ "/workspaces/" ++ slugOf "g",
            ⟨some "ctx", some []⟩, [], [], "success"⟩) ∧
      (create_agent_async "g" "yolo" 3 none wMissingAgents).2 =
        Except.ok (some (wMissingAgents.cwd ++ "/workspaces/" ++ slugOf "g"),
          some ⟨wMissingAgents.cwd ++ "/workspaces/" ++ slugOf "g",
            ⟨some "ctx", none⟩, [], [], "success"⟩) := by
  refine ⟨?_, ?_, ?_⟩
  · exact (empty_plan_no_validation "g" "yolo" 3 wNoPlan rfl rfl).1 rfl
  · exact (empty_plan_no_validation "g" "yolo" 3 wEmptyPlan rfl rfl).2
      ⟨some "ctx", some []⟩ rfl rfl
  · exact (empty_plan_no_validation "g" "yolo" 3 wMissingAgents rfl rfl).2
      ⟨some "ctx", none⟩ rfl rfl

/-- Claim C4 counterexample: in a two-agent plan whose FIRST agent's review
loop produces no code file, the factory still builds the second agent — the
result is a success carrying an artifact for agent `j = 2` even though agent
`i = 1` failed, so "no artifact exists for any `j > i`" is false. -/
theorem later_artifact_after_failure_counterexample :
    (create_agent_async "g" "yolo" 3 none wSkipsFailed).2 =
      Except.ok (some "/root/workspaces/g",
        some ⟨"/root/workspaces/g", ⟨some "c", some [agentA, agentB]⟩,
          [⟨"b", "/root/workspaces/g/agent_b.py", agentB⟩],
          [⟨"b", "qa-ok"⟩], "success"⟩) := by
  rfl

/-- Claim C4 (amended): a sub-agent whose Engineer–Auditor loop ends without
a code file does NOT fail the build: the factory logs a warning and proceeds
with the remaining sub-agents.  Without a callback and with no raising
stages, the build always ends in `status = "success"`, with
`generated_files` exactly the sub-agents whose loop produced a file —
regardless of failures earlier in plan order. -/
theorem factory_continues_past_failed_subagent (goal mode : String) (iters : Nat)
    (w : FactoryWorld) (bp : BlueprintJson)
    (hp : w.prepError = none) (ha : w.architectRes = Except.ok (some bp))
    (hs : w.saveBlueprintError = none) :
    (create_agent_async goal mode iters none w).2 =
      Except.ok (some (w.cwd ++ "/workspaces/" ++ slugOf goal),
        some ⟨w.cwd ++ "/workspaces/" ++ slugOf goal, bp,
          genFilesOf (w.cwd ++ "/workspaces/" ++ slugOf goal) w (bp.agents.getD []),
          qaEntriesOf w
            (genFilesOf (w.cwd ++ "/workspaces/" ++ slugOf goal) w (bp.agents.getD [])),
          "success"⟩) := by
  have hE := engineerLoop_none (w.cwd ++ "/workspaces/" ++ slugOf goal) w (bp.agents.getD [])
  rcases hrecE : engineerLoop none (w.cwd ++ "/workspaces/" ++ slugOf goal) w
    (bp.agents.getD []) with ⟨evL, resL⟩
  rw [hrecE] at hE
  simp only at hE
  subst hE
  have hQ := qaLoop_entries w
    (genFilesOf (w.cwd ++ "/workspaces/" ++ slugOf goal) w (bp.agents.getD []))
  rcases hrecQ : qaLoop w
    (genFilesOf (w.cwd ++ "/workspaces/" ++ slugOf goal) w (bp.agents.getD []))
    with ⟨evQ, qs⟩
  rw [hrecQ] at hQ
  simp only at hQ
  subst hQ
  simp [create_agent_async, hp, createAgentBody, notify_debug, ha, hs, hrecE, hrecQ]

/-- Witness for C4's amended theorem at the two-agent world where the first
agent fails review. -/
theorem factory_continues_past_failed_subagent_witness :
    (create_agent_async "g" "yolo" 3 none wSkipsFailed).2 =
      Except.ok (some (wSkipsFailed.cwd ++ "/workspaces/" ++ slugOf "g"),
        some ⟨wSkipsFailed.cwd ++ "/workspaces/" ++ slugOf "g",
          ⟨some "c", some [agentA, agentB]⟩,
          genFilesOf (wSkipsFailed.cwd ++ "/workspaces/" ++ slugOf "g") wSkipsFailed
            ((BlueprintJson.agents ⟨some "c", some [agentA, agentB]⟩).getD []),
          qaEntriesOf wSkipsFailed
            (genFilesOf (wSkipsFailed.cwd ++ "/workspaces/" ++ slugOf "g") wSkipsFailed
              ((BlueprintJson.agents ⟨some "c", some [agentA, agentB]⟩).getD [])),
          "success"⟩) := by
  exact factory_continues_past_failed_subagent "g" "yolo" 3 wSkipsFailed
    ⟨some "c", some [agentA, agentB]⟩ rfl rfl rfl

/-- Claim C5 counterexample: when workspace allocation raises
(`prepare_workspace` runs BEFORE the `try:` block of `create_agent_async`),
the exception escapes `build()` — the result is an uncaught `Except.error`,
not a returned value. -/
theorem workspace_alloc_exception_counterexample :
    create_agent_async "g" "yolo" 3 none wPrepFails =
      ([], Except.error
        "PermissionError: [Errno 13] Permission denied: \x27workspaces\x27") := by
  rfl

/-- Claim C5 (amended): provided workspace allocation succeeds,
`create_agent_async` always RETURNS a value — every stage failure inside the
`try:` (architect error, blueprint persistence error, observer veto, …) is
caught and translated to the returned `(None, None)`.  But an exception in
`prepare_workspace` itself, which runs before the `try:`, propagates to the
caller. -/
theorem create_agent_returns_after_alloc (goal mode : String) (iters : Nat)
    (cb : Option (String → Payload → Bool)) (w : FactoryWorld)
    (hp : w.prepError = none) :
    ((create_agent_async goal mode iters cb w).2).isOk = true := by
  simp [create_agent_async, hp, Except.isOk, Except.toBool]

/-- Witness for C5's amended theorem: even with an observer that vetoes
immediately (and an artifact-persistence failure configured), the call
returns a value. -/
theorem create_agent_returns_after_alloc_witness :
    ((create_agent_async "g" "yolo" 3 (some (fun _ _ => false)) wGoodPlan).2).isOk =
      true := by
  exact create_agent_returns_after_alloc "g" "yolo" 3 (some (fun _ _ => false))
    wGoodPlan rfl

/-- Claim C6 counterexample: a run cancelled by the observer at the very
first step returns exactly `(None, None)` — the SAME value a failed run
(architect produced no blueprint) returns.  The terminal "Cancelled" outcome
is therefore not a distinct status at the public boundary; it is only logged
differently. -/
theorem cancel_status_not_distinct_counterexample :
    (create_agent_async "g" "debug" 3 (some (fun _ _ => false)) wGoodPlan).2 =
        Except.ok (none, none) ∧
      (create_agent_async "g" "debug" 3 (some (fun _ _ => false)) wGoodPlan).2 =
        (create_agent_async "g" "debug" 3 none wNoPlan).2 := by
  exact ⟨rfl, rfl⟩

/-- Claim C6 (amended): if the observer returns false at the first step
notification (`"Architect: Start"`), the build aborts immediately — the only
observable effects are the workspace allocation and that one notification
(no blueprint write, no review loop, no QA run) — and `create_agent_async`
returns `(None, None)`, the same value every failure path returns. -/
theorem cancel_aborts_with_none_result (goal mode : String) (iters : Nat)
    (f : String → Payload → Bool) (w : FactoryWorld)
    (hp : w.prepError = none)
    (hf : f "Architect: Start" (Payload.goalP goal) = false) :
    create_agent_async goal mode iters (some f) w =
      ([FEvent.allocWorkspace (w.cwd ++ "/workspaces/" ++ slugOf goal),
        FEvent.notify "Architect: Start"], Except.ok (none, none)) := by
  simp [create_agent_async, hp, createAgentBody, notify_debug, hf]

/-- Witness for C6's amended theorem at a concrete always-vetoing observer. -/
theorem cancel_aborts_with_none_result_witness :
    create_agent_async "g" "debug" 3 (some (fun _ _ => false)) wGoodPlan =
      ([FEvent.allocWorkspace (wGoodPlan.cwd ++ "/workspaces/" ++ slugOf "g"),
        FEvent.notify "Architect: Start"], Except.ok (none, none)) := by
  exact cancel_aborts_with_none_result "g" "debug" 3 (fun _ _ => false) wGoodPlan rfl rfl

/-- A session in a terminal phase (SUCCESS or FAILED) makes no further
progress for any amount of fuel. -/
theorem debugRun_terminal (w : DebugWorld) (m fuel : Nat) (s : DebugSession)
    (h : nextAction s.debug_state = none) : debugRun w m fuel s = (s, []) := by
  cases fuel with
  | zero => rfl
  | succ f => simp [debugRun, h]

/-- Generator-invocation counts add over trace concatenation. -/
theorem engineerCalls_append (a b : List DEvent) :
    engineerCalls (a ++ b) = engineerCalls a + engineerCalls b := by
  simp [engineerCalls, List.filter_append]

/-- The Engineer→Auditor→Retry cycle of the debug state machine under an
always-failing auditor: starting from `ENGINEER_READY` at attempt `a` with
`maxR - a = d`, the driver performs `d + 1` further generator invocations and
ends in `FAILED`. -/
theorem debugRun_failLoop (w : DebugWorld) (maxR : Nat)
    (hfail : ∀ k, ¬ (w.audit k).status = "PASS")
    (ctxOpt : Option String) (t : AgentDef) (ts : List AgentDef) :
    ∀ d a cd fb fuel, maxR - a = d → a ≤ maxR → 4 * d + 3 ≤ fuel →
      (debugRun w maxR fuel
          ⟨DebugPhase.ENGINEER_READY, some ⟨ctxOpt, some (t :: ts)⟩, cd, fb, a⟩).1.debug_state
          = DebugPhase.FAILED ∧
        engineerCalls (debugRun w maxR fuel
          ⟨DebugPhase.ENGINEER_READY, some ⟨ctxOpt, some (t :: ts)⟩, cd, fb, a⟩).2 = d + 1 := by
  intro d
  induction d with
  | zero =>
    intro a cd fb fuel hd ha hfuel
    have haM : ¬ a < maxR := by omega
    obtain ⟨f1, rfl⟩ : ∃ k, fuel = k + 1 := ⟨fuel - 1, by omega⟩
    obtain ⟨f2, rfl⟩ : ∃ k, f1 = k + 1 := ⟨f1 - 1, by omega⟩
    obtain ⟨f3, rfl⟩ : ∃ k, f2 = k + 1 := ⟨f2 - 1, by omega⟩
    simp only [debugRun, nextAction, debugStep, Option.getD_some, ite_true, ite_false,
      if_true, if_false, hfail a, haM]
    simp [debugRun_terminal, nextAction, engineerCalls]
  | succ dd ih =>
    intro a cd fb fuel hd ha hfuel
    have haM : a < maxR := by omega
    obtain ⟨f1, rfl⟩ : ∃ k, fuel = k + 1 := ⟨fuel - 1, by omega⟩
    obtain ⟨f2, rfl⟩ : ∃ k, f1 = k + 1 := ⟨f1 - 1, by omega⟩
    obtain ⟨f3, rfl⟩ : ∃ k, f2 = k + 1 := ⟨f2 - 1, by omega⟩
    obtain ⟨f4, rfl⟩ : ∃ k, f3 = k + 1 := ⟨f3 - 1, by omega⟩
    simp only [debugRun, nextAction, debugStep, Option.getD_some, ite_true, ite_false,
      if_true, if_false, hfail a, haM]
    obtain ⟨h1, h2⟩ := ih (a + 1) (some (w.buildCode t (ctxOpt.getD "")))
      (pyOr (w.audit a).feedback (w.audit a).reasoning) f4
      (by omega) (by omega) (by omega)
    rcases hR : debugRun w maxR f4
        ⟨DebugPhase.ENGINEER_READY, some ⟨ctxOpt, some (t :: ts)⟩,
          some (w.buildCode t (ctxOpt.getD "")),
          pyOr (w.audit a).feedback (w.audit a).reasoning, a + 1⟩ with ⟨sR, evR⟩
    rw [hR] at h1 h2
    simp only [hR]
    constructor
    · exact h1
    · simp [engineerCalls_append, engineerCalls] at h2 ⊢
      omega

/-- Claim C1 counterexample: with `max_retries = 3` and an auditor that fails
every attempt, the Engineer is invoked exactly 3 times — NOT
`max_retries + 1 = 4` times — before the session reaches the FAILED ("Max
Retries Reached") terminal state. -/
theorem debug_retry_generator_count_counterexample :
    engineerCalls (debugRun wAlwaysFail 3 15 initialSession).2 = 3 ∧
      (debugRun wAlwaysFail 3 15 initialSession).1.debug_state = DebugPhase.FAILED ∧
      ¬ engineerCalls (debugRun wAlwaysFail 3 15 initialSession).2 = 3 + 1 := by
  refine ⟨by decide, by decide, by decide⟩

/-- Claim C1 (amended): for every debug-mode build whose auditor fails every
attempt, the Engineer is invoked exactly `max_retries` times (attempts
`1 … max_retries`, since the session retries only while
`attempt < max_retries`), after which the session terminates in the FAILED
state. -/
theorem debug_retry_bound (w : DebugWorld) (max_retries : Nat)
    (ctxOpt : Option String) (t : AgentDef) (ts : List AgentDef)
    (hbp : w.designResult = ⟨ctxOpt, some (t :: ts)⟩)
    (hmr : 1 ≤ max_retries)
    (hfail : ∀ k, ¬ (w.audit k).status = "PASS") :
    (debugRun w max_retries (4 * max_retries + 3) initialSession).1.debug_state =
        DebugPhase.FAILED ∧
      engineerCalls (debugRun w max_retries (4 * max_retries + 3) initialSession).2 =
        max_retries := by
  rw [show 4 * max_retries + 3 = 4 * max_retries + 1 + 1 + 1 from by omega]
  simp only [initialSession, debugRun, nextAction, debugStep, Option.getD_some,
    ite_true, ite_false, if_true, if_false, hbp]
  obtain ⟨h1, h2⟩ := debugRun_failLoop w max_retries hfail ctxOpt t ts
    (max_retries - 1) 1 none none (4 * max_retries) (by omega) (by omega) (by omega)
  rcases hR : debugRun w max_retries (4 * max_retries)
      ⟨DebugPhase.ENGINEER_READY, some ⟨ctxOpt, some (t :: ts)⟩, none, none, 1⟩
    with ⟨sR, evR⟩
  rw [hR] at h1 h2
  simp only [hR]
  constructor
  · exact h1
  · simp [engineerCalls, List.filter_append] at h2 ⊢
    omega

/-- Witness for C1's amended theorem at `max_retries = 3` and the concrete
always-failing world. -/
theorem debug_retry_bound_witness :
    (debugRun wAlwaysFail 3 (4 * 3 + 3) initialSession).1.debug_state =
        DebugPhase.FAILED ∧
      engineerCalls (debugRun wAlwaysFail 3 (4 * 3 + 3) initialSession).2 = 3 := by
  exact debug_retry_bound wAlwaysFail 3 (some "c") agentA [] rfl (by decide)
    (fun k h => absurd h (show ¬ ("FAIL" = "PASS") from by decide))

/-- Claim C2 (code bug, evaluated at the failing input): in the debug retry
loop, after the auditor rejects attempt 1 with feedback
`"missing function X"` (stored in the session and still present at the end),
the generator call of attempt 2 receives exactly `(agents[0],
end_to_end_context)` — and the literal feedback text occurs nowhere in that
input.  The stored review feedback is displayed to the user but never passed
to `build_agent`/`create_engineer_agent`, whose inputs contain no feedback
parameter at all. -/
theorem engineer_input_omits_reviewer_feedback :
    DEvent.engineerCall agentA "c" 2 ∈ (debugRun wFailThenPass 3 15 initialSession).2 ∧
      (debugRun wFailThenPass 3 15 initialSession).1.debug_state = DebugPhase.SUCCESS ∧
      (debugRun wFailThenPass 3 15 initialSession).1.feedback =
        some "missing function X" ∧
      generatorInputMentions agentA "c" "missing function X" = false := by
  refine ⟨by decide, by decide, by decide, by decide⟩

end AgentFactory
